import Mathlib

/-!
Verification development for the Python plugin-hosting gRPC server
(`plugin_server/py/plugin_server.py` of the Tsunami security scanner).

The module is embedded shallowly:

* configuration flags become a `Flags` record whose defaults are the
  `flags.DEFINE_*` defaults of the source;
* the pure data assembled by `_configure_plugin_service` (HTTP client,
  callback client, payload generator, detector instances) becomes records
  and a pure construction function;
* the recursive plugin-namespace traversal `_import_py_plugins` becomes a
  recursion over a tree of Python modules, returning either the import
  error that was raised or the list of import events in order;
* the body of `main` becomes a builder of the ordered list of lifecycle
  steps it performs (`mainSteps`), an `Except` value so that an uncaught
  exception during startup is visible as an aborted run;
* the observable server state (listener started, per-service health,
  SIGTERM handler installed, shutdown event) becomes a state machine
  folded over the step trace, with external SIGTERM deliveries
  interleaved as extra events.
-/

namespace TsunamiPluginServer

/-- Fixed listen host of the server (source constant `_HOST`). -/
def _HOST : String := "127.0.0.1"

/-- The command-line flags recognised by `plugin_server.py`.  Field names
follow the flag names; `timeout_seconds` is declared as a float flag in the
source but only ever carries the configured number of seconds, modelled
here as a natural number. -/
structure Flags where
  port : Nat
  threads : Nat
  log_output : String
  timeout_seconds : Nat
  log_id : String
  trust_all_ssl_cert : Bool
  callback_address : String
  callback_port : Nat
  polling_uri : String
deriving DecidableEq

/-- The default value of every flag, as written in the `flags.DEFINE_*`
calls of the source. -/
def default_flags : Flags :=
  { port := 34567
  , threads := 10
  , log_output := "/tmp"
  , timeout_seconds := 10
  , log_id := ""
  , trust_all_ssl_cert := true
  , callback_address := "127.0.0.1"
  , callback_port := 8881
  , polling_uri := "http://127.0.0.1:8880" }

/-- The server address string `f'{_HOST}:{_PORT.value}'` computed in `main`. -/
def server_addr (f : Flags) : String := _HOST ++ ":" ++ toString f.port

/-- The outbound HTTP client handed to every detector: the result of the
builder chain in `_configure_plugin_service`. -/
structure HttpClient where
  timeout_sec : Nat
  verify_ssl : Bool
  log_id : String
deriving DecidableEq

/-- Modelled from the spec: the builder for the outbound HTTP client
(`common.net.http.requests_http_client.RequestsHttpClientBuilder`, a module
of this repository that is not under `src/`).  Per the spec the client is
"configured with timeout, SSL-trust policy, and a correlation identifier
for log tracing": each setter records its argument and `build` produces the
client with exactly the recorded settings. -/
structure RequestsHttpClientBuilder where
  timeout_sec : Nat := 0
  verify_ssl : Bool := true
  log_id : String := ""
deriving DecidableEq

/-- Builder setter: record the timeout. -/
def RequestsHttpClientBuilder.set_timeout_sec
    (b : RequestsHttpClientBuilder) (t : Nat) : RequestsHttpClientBuilder :=
  { b with timeout_sec := t }

/-- Builder setter: record the SSL-verification policy. -/
def RequestsHttpClientBuilder.set_verify_ssl
    (b : RequestsHttpClientBuilder) (v : Bool) : RequestsHttpClientBuilder :=
  { b with verify_ssl := v }

/-- Builder setter: record the log correlation id. -/
def RequestsHttpClientBuilder.set_log_id
    (b : RequestsHttpClientBuilder) (i : String) : RequestsHttpClientBuilder :=
  { b with log_id := i }

/-- Builder: produce the client from the recorded settings. -/
def RequestsHttpClientBuilder.build (b : RequestsHttpClientBuilder) : HttpClient :=
  { timeout_sec := b.timeout_sec, verify_ssl := b.verify_ssl, log_id := b.log_id }

/-- The callback-server client `TcsClient(address, port, polling_uri,
http_client)` constructed in `_configure_plugin_service`; a record of its
constructor arguments. -/
structure TcsClient where
  callback_address : String
  callback_port : Nat
  polling_uri : String
  http_client : HttpClient
deriving DecidableEq

/-- The payload secret generator `PayloadSecretGenerator()`; it takes no
constructor arguments. -/
structure PayloadSecretGenerator where
deriving DecidableEq

/-- Modelled from the spec: `payload_utility.get_parsed_payload` (a module
of this repository that is not under `src/`), the "parsed-payload template
source" supplied to the payload generator.  Its contents play no role in
any registry or lifecycle claim; it is modelled as the list of parsed
template identifiers. -/
def get_parsed_payload : List String := []

/-- The payload generator `PayloadGenerator(PayloadSecretGenerator(),
get_parsed_payload(), callback_client)`; a record of its constructor
arguments. -/
structure PayloadGenerator where
  secret_generator : PayloadSecretGenerator
  parsed_payloads : List String
  callback_client : TcsClient
deriving DecidableEq

/-- A registered detector type: one concrete subclass of
`tsunami_plugin.VulnDetector` found by `VulnDetector.__subclasses__()`.
`class_name` identifies the Python class itself; `definition_name` is the
descriptor name `GetPluginDefinition().info.name` that the class reports. -/
structure VulnDetectorType where
  class_name : String
  definition_name : String
deriving DecidableEq

/-- A constructed plugin `cls(http_client, payload_generator)`: the class it
was built from together with the two dependencies passed to its
constructor. -/
structure DetectorInstance where
  cls : VulnDetectorType
  http_client : HttpClient
  payload_generator : PayloadGenerator
deriving DecidableEq

/-- The HTTP client built in `_configure_plugin_service`:
`RequestsHttpClientBuilder().set_timeout_sec(_TIMEOUT_SEC.value)
.set_verify_ssl(not _TRUST_ALL_SSL_CERT.value).set_log_id(_LOG_ID.value)
.build()`. -/
def http_client_of (f : Flags) : HttpClient :=
  ((({} : RequestsHttpClientBuilder).set_timeout_sec
      f.timeout_seconds).set_verify_ssl
      (!f.trust_all_ssl_cert)).set_log_id f.log_id |>.build

/-- The callback client built in `_configure_plugin_service`. -/
def callback_client_of (f : Flags) : TcsClient :=
  { callback_address := f.callback_address
  , callback_port := f.callback_port
  , polling_uri := f.polling_uri
  , http_client := http_client_of f }

/-- The payload generator built in `_configure_plugin_service`. -/
def payload_generator_of (f : Flags) : PayloadGenerator :=
  { secret_generator := {}
  , parsed_payloads := get_parsed_payload
  , callback_client := callback_client_of f }

/-- The plugin list built by `_configure_plugin_service`:
`[cls(http_client, payload_generator) for cls in
tsunami_plugin.VulnDetector.__subclasses__()]`, where `subclasses` is the
list of registered detector types.  The source performs no name-based
validation: it maps the constructor over the subclass list. -/
def _configure_plugin_service (f : Flags) (subclasses : List VulnDetectorType) :
    List DetectorInstance :=
  let http_client := http_client_of f
  let payload_generator := payload_generator_of f
  subclasses.map (fun cls =>
    { cls := cls, http_client := http_client, payload_generator := payload_generator })

/-- `reflection.SERVICE_NAME` of the gRPC reflection library. -/
def reflection_SERVICE_NAME : String := "grpc.reflection.v1alpha.ServerReflection"

/-- `health.SERVICE_NAME` of the gRPC health-checking library. -/
def health_SERVICE_NAME : String := "grpc.health.v1.Health"

/-- One observable lifecycle step performed by `main`, in the order the
source performs them. -/
inductive Step where
  | configureLog
  | importModule (full_name : String)
  | configurePluginService
  | registerHealthService
  | addInsecurePort (addr : String)
  | serverStart
  | setServing (service : String)
  | enableReflection
  | installSigtermHandler
  | waitForSigterm
  | serverStop (grace : Nat)
  | stopWait
deriving DecidableEq

/-- Whether a step is a plugin-module import event. -/
def Step.isImport : Step → Bool
  | Step.importModule _ => true
  | _ => false

/-- The contents of a Python package as seen by
`pkgutil.walk_packages(pkg.__path__)`: a sequence of child modules, each a
plain module or a nested package with its own contents.  `import_error`
records the exception message `importlib.import_module` would raise for
that child, if any. -/
inductive PyTree where
  | nil : PyTree
  | mod (name : String) (import_error : Option String) (rest : PyTree) : PyTree
  | pkg (name : String) (import_error : Option String)
      (contents : PyTree) (rest : PyTree) : PyTree
deriving DecidableEq

/-- `_import_py_plugins(plugin_pkg)`: for every child `(name, is_pkg)` of
the package, import `parent + '.' + name` (propagating any raised error
uncaught) and recurse into it when it is itself a package.  On success the
result is the ordered list of import events. -/
def _import_py_plugins (parent : String) : PyTree → Except String (List Step)
  | PyTree.nil => Except.ok []
  | PyTree.mod name import_error rest =>
    match import_error with
    | some e => Except.error e
    | none =>
      match _import_py_plugins parent rest with
      | Except.error e => Except.error e
      | Except.ok s => Except.ok (Step.importModule (parent ++ "." ++ name) :: s)
  | PyTree.pkg name import_error contents rest =>
    match import_error with
    | some e => Except.error e
    | none =>
      match _import_py_plugins (parent ++ "." ++ name) contents with
      | Except.error e => Except.error e
      | Except.ok inner =>
        match _import_py_plugins parent rest with
        | Except.error e => Except.error e
        | Except.ok s =>
          Except.ok (Step.importModule (parent ++ "." ++ name) :: (inner ++ s))

/-- The root plugin package `py_plugins` loaded by
`importlib.import_module('py_plugins')` in `main`: the outcome of that
root import together with the package contents the traversal walks. -/
structure PyPackage where
  import_error : Option String
  contents : PyTree
deriving DecidableEq

/-- The whole environment `main` runs against: the parsed flags, the root
plugin package, the service names listed by
`plugin_service_pb2.DESCRIPTOR.services_by_name` (generated proto code),
and the registered detector subclasses. -/
structure MainConfig where
  flags : Flags
  py_plugins : PyPackage
  plugin_service_names : List String
  subclasses : List VulnDetectorType
deriving DecidableEq

/-- The tuple `services` computed in `_set_health_service_to_serving`: the
full names of the proto services followed by the reflection and health
service names. -/
def servicesOf (cfg : MainConfig) : List String :=
  cfg.plugin_service_names ++ [reflection_SERVICE_NAME, health_SERVICE_NAME]

/-- The steps performed by `_set_health_service_to_serving`: set every
advertised service to SERVING, then enable server reflection for them. -/
def _set_health_service_to_serving (services : List String) : List Step :=
  services.map Step.setServing ++ [Step.enableReflection]

/-- The straight-line body of `main`, as the ordered list of lifecycle
steps it performs.  An exception raised while importing plugins propagates
uncaught, so the run is an `error` and none of the later steps happen.
After the plugin imports, `main` unconditionally configures the plugin
service, registers the health service, binds the port, starts the server,
announces SERVING and reflection, installs the SIGTERM handler, blocks on
the shutdown event, and finally stops with grace 3 and waits. -/
def mainSteps (cfg : MainConfig) : Except String (List Step) :=
  match cfg.py_plugins.import_error with
  | some e => Except.error e
  | none =>
    match _import_py_plugins "py_plugins" cfg.py_plugins.contents with
    | Except.error e => Except.error e
    | Except.ok isteps =>
      Except.ok
        (Step.configureLog :: Step.importModule "py_plugins" ::
          (isteps ++
            ([Step.configurePluginService, Step.registerHealthService,
              Step.addInsecurePort (server_addr cfg.flags), Step.serverStart] ++
              (_set_health_service_to_serving (servicesOf cfg) ++
                [Step.installSigtermHandler, Step.waitForSigterm,
                 Step.serverStop 3, Step.stopWait]))))

/-- The observable server state threaded through an execution: whether the
listener is accepting connections (`server.start()` was executed), which
services have been set to SERVING, whether the SIGTERM handler is
installed, and whether the shutdown event `sig_term_received` has been
set. -/
structure ServerState where
  started : Bool
  serving : List String
  handlerInstalled : Bool
  sig_term_received : Bool
deriving DecidableEq

/-- The state before `main` runs: nothing started, every health state still
NOT_SERVING, no handler installed, shutdown event clear. -/
def initState : ServerState :=
  { started := false, serving := [], handlerInstalled := false
  , sig_term_received := false }

/-- Effect of one lifecycle step on the observable server state. -/
def execStep (st : ServerState) : Step → ServerState
  | Step.serverStart => { st with started := true }
  | Step.setServing s => { st with serving := s :: st.serving }
  | Step.installSigtermHandler => { st with handlerInstalled := true }
  | _ => st

/-- Run a list of lifecycle steps from the initial state. -/
def runTrace (l : List Step) : ServerState := l.foldl execStep initState

/-- The handler `on_sigterm(signum, frame)` as a transformer of the
`sig_term_received` event state: it calls `sig_term_received.set()`, i.e.
it sets the single-fire event regardless of its previous state. -/
def on_sigterm (_signum : Nat) (_sig_term_received : Bool) : Bool :=
  true

/-- Delivery of SIGTERM (signal number 15) to the process: the handler runs
only once it has been installed by `signal.signal(signal.SIGTERM,
on_sigterm)`; before that point the handler cannot touch the event. -/
def deliverSigterm (st : ServerState) : ServerState :=
  if st.handlerInstalled then
    { st with sig_term_received := on_sigterm 15 st.sig_term_received }
  else st

/-- An event of a full execution: either `main` performing one of its
lifecycle steps, or the external delivery of SIGTERM at that point. -/
inductive SigEvent where
  | prog (s : Step)
  | sigterm
deriving DecidableEq

/-- The program step carried by an event, if any. -/
def SigEvent.progStep : SigEvent → Option Step
  | SigEvent.prog s => some s
  | SigEvent.sigterm => none

/-- Effect of one execution event on the observable server state. -/
def execEvent (st : ServerState) : SigEvent → ServerState
  | SigEvent.prog s => execStep st s
  | SigEvent.sigterm => deliverSigterm st

/-- Run an interleaving of program steps and SIGTERM deliveries from the
initial state. -/
def runEvents (es : List SigEvent) : ServerState := es.foldl execEvent initState

/-- The drain performed by `server.stop(grace)` followed by `.wait()` on
the returned event, over the durations (in the grace period's time unit)
of the calls in flight at shutdown: new connections are no longer
accepted, every call that can finish within the grace period finishes and
is kept, every other call is abandoned when the grace period elapses, and
the wait itself lasts until all calls finished or the grace period
elapsed, whichever is earlier. -/
structure DrainResult where
  waited : Nat
  completed : List Nat
  abandoned : List Nat
deriving DecidableEq

/-- Shallow model of `server.stop(grace).wait()` over in-flight call
durations. -/
def serverStopWait (grace : Nat) (inflight : List Nat) : DrainResult :=
  { waited := min (inflight.foldr max 0) grace
  , completed := inflight.filter (fun d => decide (d ≤ grace))
  , abandoned := inflight.filter (fun d => decide (grace < d)) }

/-- The steps of `main` up to and including `server.start()`, given
the import events `isteps` the discovery traversal performed. -/
def preStartSteps (cfg : MainConfig) (isteps : List Step) : List Step :=
  Step.configureLog :: Step.importModule "py_plugins" ::
    (isteps ++ [Step.configurePluginService, Step.registerHealthService,
      Step.addInsecurePort (server_addr cfg.flags), Step.serverStart])

/-- The steps of `main` strictly after `server.start()`. -/
def postStartSteps (cfg : MainConfig) : List Step :=
  _set_health_service_to_serving (servicesOf cfg) ++
    [Step.installSigtermHandler, Step.waitForSigterm,
     Step.serverStop 3, Step.stopWait]

/-! ### Concrete fixtures used by witnesses and counterexamples -/

/-- A concrete registered detector type. -/
def exampleDetector : VulnDetectorType :=
  { class_name := "ExampleDetector", definition_name := "ExampleDetector" }

/-- A second, distinct registered detector type. -/
def secondDetector : VulnDetectorType :=
  { class_name := "SecondDetector", definition_name := "SecondDetector" }

/-- A concrete full name for the proto-descriptor scan service. -/
def examplePluginServiceName : String := "tsunami_server.plugin.PluginService"

/-- A concrete startup environment: default flags, a plugin package with
one importable module, one proto service name, one detector type. -/
def cfg0 : MainConfig :=
  { flags := default_flags
  , py_plugins := { import_error := none
                  , contents := PyTree.mod "example_detector" none PyTree.nil }
  , plugin_service_names := [examplePluginServiceName]
  , subclasses := [exampleDetector] }

/-- The step trace of the successful run of `main` under `cfg0`. -/
def trace0 : List Step :=
  [Step.configureLog,
   Step.importModule "py_plugins",
   Step.importModule "py_plugins.example_detector",
   Step.configurePluginService,
   Step.registerHealthService,
   Step.addInsecurePort "127.0.0.1:34567",
   Step.serverStart,
   Step.setServing examplePluginServiceName,
   Step.setServing reflection_SERVICE_NAME,
   Step.setServing health_SERVICE_NAME,
   Step.enableReflection,
   Step.installSigtermHandler,
   Step.waitForSigterm,
   Step.serverStop 3,
   Step.stopWait]

/-- Two distinct detector types declaring the same descriptor name. -/
def dupDetectorA : VulnDetectorType :=
  { class_name := "DetectorA", definition_name := "duplicate_plugin" }

/-- Another detector type with the descriptor name of `dupDetectorA`. -/
def dupDetectorB : VulnDetectorType :=
  { class_name := "DetectorB", definition_name := "duplicate_plugin" }

/-- A startup environment whose registered detector types collide on their
descriptor name. -/
def cfgDup : MainConfig :=
  { flags := default_flags
  , py_plugins := { import_error := none, contents := PyTree.nil }
  , plugin_service_names := [examplePluginServiceName]
  , subclasses := [dupDetectorA, dupDetectorB] }

/-- The step trace of the successful run of `main` under `cfgDup`. -/
def traceDup : List Step :=
  [Step.configureLog,
   Step.importModule "py_plugins",
   Step.configurePluginService,
   Step.registerHealthService,
   Step.addInsecurePort "127.0.0.1:34567",
   Step.serverStart,
   Step.setServing examplePluginServiceName,
   Step.setServing reflection_SERVICE_NAME,
   Step.setServing health_SERVICE_NAME,
   Step.enableReflection,
   Step.installSigtermHandler,
   Step.waitForSigterm,
   Step.serverStop 3,
   Step.stopWait]

/-- A startup environment in which importing one plugin module raises. -/
def cfgBad : MainConfig :=
  { flags := default_flags
  , py_plugins := { import_error := none
                  , contents := PyTree.mod "broken_plugin"
                      (some "ImportError: broken_plugin") PyTree.nil }
  , plugin_service_names := [examplePluginServiceName]
  , subclasses := [] }

/-- A startup environment in which importing the root plugin package
itself raises. -/
def cfgRootBad : MainConfig :=
  { flags := default_flags
  , py_plugins := { import_error := some "ModuleNotFoundError: py_plugins"
                  , contents := PyTree.nil }
  , plugin_service_names := [examplePluginServiceName]
  , subclasses := [] }

/-! ### General list lemmas used by the temporal-ordering proofs -/

/-- If `x` is among the first `n` elements of `A ++ B` but occurs nowhere
in `A`, then the prefix extends beyond `A` and `x` lies in the
corresponding prefix of `B`. -/
theorem length_lt_of_mem_take {α : Type} {A B : List α} {x : α}
    {n : Nat} (hxA : x ∉ A) (hx : x ∈ (A ++ B).take n) :
    A.length < n ∧ x ∈ B.take (n - A.length) := by
  rw [List.take_append_eq_append_take] at hx
  rcases List.mem_append.mp hx with h | h
  · exact absurd (List.take_subset _ _ h) hxA
  · refine ⟨?_, h⟩
    by_contra hle
    push_neg at hle
    have h0 : n - A.length = 0 := Nat.sub_eq_zero_of_le hle
    rw [h0] at h
    simp at h

/-- Every element of `A` is among the first `n` elements of `A ++ B` once
the prefix covers all of `A`. -/
theorem mem_take_append_left {α : Type} {A B : List α} {y : α} {n : Nat}
    (hy : y ∈ A) (hn : A.length ≤ n) : y ∈ (A ++ B).take n := by
  rw [List.take_append_eq_append_take, List.take_of_length_le hn]
  exact List.mem_append_left _ hy

/-! ### Facts about the plugin-import traversal -/

/-- Every step emitted by the plugin-namespace traversal is a
module-import event. -/
theorem import_steps_are_imports (parent : String) (t : PyTree) (s : List Step)
    (h : _import_py_plugins parent t = Except.ok s) :
    ∀ x ∈ s, x.isImport = true := by
  induction t generalizing parent s with
  | nil =>
    simp only [_import_py_plugins, Except.ok.injEq] at h
    subst h
    intro x hx
    cases hx
  | mod name err rest ih =>
    cases err with
    | some e => simp [_import_py_plugins] at h
    | none =>
      cases hr : _import_py_plugins parent rest with
      | error e => simp [_import_py_plugins, hr] at h
      | ok s' =>
        simp only [_import_py_plugins, hr, Except.ok.injEq] at h
        subst h
        intro x hx
        rcases List.mem_cons.mp hx with hx | hx
        · subst hx; rfl
        · exact ih parent s' hr x hx
  | pkg name err contents rest ihc ihr =>
    cases err with
    | some e => simp [_import_py_plugins] at h
    | none =>
      cases hc : _import_py_plugins (parent ++ "." ++ name) contents with
      | error e => simp [_import_py_plugins, hc] at h
      | ok inner =>
        cases hr : _import_py_plugins parent rest with
        | error e => simp [_import_py_plugins, hc, hr] at h
        | ok s' =>
          simp only [_import_py_plugins, hc, hr, Except.ok.injEq] at h
          subst h
          intro x hx
          rcases List.mem_cons.mp hx with hx | hx
          · subst hx; rfl
          · rcases List.mem_append.mp hx with hx | hx
            · exact ihc (parent ++ "." ++ name) inner hc x hx
            · exact ihr parent s' hr x hx

/-- Canonical shape of a successful run of `main`: the trace is the log
configuration, the plugin imports, the service configuration and health
registration, the port bind, the server start, the SERVING announcements
with reflection, the handler installation, and the shutdown sequence, in
that order. -/
theorem mainSteps_ok_shape (cfg : MainConfig) (t : List Step)
    (h : mainSteps cfg = Except.ok t) :
    ∃ isteps, (∀ x ∈ isteps, x.isImport = true) ∧
      t = Step.configureLog :: Step.importModule "py_plugins" ::
        (isteps ++
          ([Step.configurePluginService, Step.registerHealthService,
            Step.addInsecurePort (server_addr cfg.flags), Step.serverStart] ++
            (_set_health_service_to_serving (servicesOf cfg) ++
              [Step.installSigtermHandler, Step.waitForSigterm,
               Step.serverStop 3, Step.stopWait]))) := by
  unfold mainSteps at h
  cases he : cfg.py_plugins.import_error with
  | some e => simp [he] at h
  | none =>
    cases hi : _import_py_plugins "py_plugins" cfg.py_plugins.contents with
    | error e => simp [he, hi] at h
    | ok isteps =>
      simp only [he, hi, Except.ok.injEq] at h
      exact ⟨isteps, import_steps_are_imports _ _ _ hi, h.symm⟩

/-- A successful run of `main` splits into the steps up to and including
`server.start()` followed by the steps after it. -/
theorem mainSteps_ok_split (cfg : MainConfig) (t : List Step)
    (h : mainSteps cfg = Except.ok t) :
    ∃ isteps, (∀ x ∈ isteps, x.isImport = true) ∧
      t = preStartSteps cfg isteps ++ postStartSteps cfg := by
  obtain ⟨isteps, him, ht⟩ := mainSteps_ok_shape cfg t h
  refine ⟨isteps, him, ?_⟩
  rw [ht]
  simp [preStartSteps, postStartSteps, List.append_assoc]

/-- A step that is not an import and is none of the five fixed startup
steps does not occur before `server.start()`. -/
theorem not_mem_preStartSteps (cfg : MainConfig) (isteps : List Step)
    (him : ∀ x ∈ isteps, x.isImport = true) (x : Step)
    (hx : x.isImport = false)
    (h0 : x ≠ Step.configureLog)
    (h1 : x ≠ Step.configurePluginService)
    (h2 : x ≠ Step.registerHealthService)
    (h3 : x ≠ Step.addInsecurePort (server_addr cfg.flags))
    (h4 : x ≠ Step.serverStart) :
    x ∉ preStartSteps cfg isteps := by
  intro hmem
  simp only [preStartSteps, List.mem_cons, List.mem_append] at hmem
  rcases hmem with h | h | h | h
  · exact h0 h
  · rw [h] at hx; simp [Step.isImport] at hx
  · rw [him x h] at hx; cases hx
  · simp only [List.mem_cons, List.not_mem_nil, or_false] at h
    rcases h with h | h | h | h
    · exact h1 h
    · exact h2 h
    · exact h3 h
    · exact h4 h

/-- A step that sets no health state and is not the reflection attachment
does not occur among the steps of `_set_health_service_to_serving`. -/
theorem not_mem_servingSteps (svcs : List String) (x : Step)
    (hss : ∀ s, x ≠ Step.setServing s)
    (hrefl : x ≠ Step.enableReflection) :
    x ∉ _set_health_service_to_serving svcs := by
  intro hmem
  simp only [_set_health_service_to_serving, List.mem_append, List.mem_map,
    List.mem_singleton] at hmem
  rcases hmem with ⟨a, -, h⟩ | h
  · exact hss a h.symm
  · exact hrefl h

/-- `server.start()` is among the steps before the announce phase. -/
theorem serverStart_mem_preStartSteps (cfg : MainConfig) (isteps : List Step) :
    Step.serverStart ∈ preStartSteps cfg isteps := by
  simp [preStartSteps]

/-- The port bind is among the steps before the announce phase. -/
theorem addInsecurePort_mem_preStartSteps (cfg : MainConfig) (isteps : List Step) :
    Step.addInsecurePort (server_addr cfg.flags) ∈ preStartSteps cfg isteps := by
  simp [preStartSteps]

/-! ### Facts about the server-state machine -/

/-- No lifecycle step of `main` itself sets the shutdown event: only the
signal handler does. -/
theorem execStep_sig_term (st : ServerState) (s : Step) :
    (execStep st s).sig_term_received = st.sig_term_received := by
  cases s <;> rfl

/-- Any step other than the handler installation leaves the
handler-installed bit unchanged. -/
theorem execStep_handlerInstalled (st : ServerState) (s : Step)
    (hs : s ≠ Step.installSigtermHandler) :
    (execStep st s).handlerInstalled = st.handlerInstalled := by
  cases s <;> simp [execStep] <;> simp at hs

/-- The listener is marked started after a step list exactly when it was
already started or the list performs `server.start()`. -/
theorem foldl_execStep_started (l : List Step) (st : ServerState) :
    (l.foldl execStep st).started = true ↔
      st.started = true ∨ Step.serverStart ∈ l := by
  induction l generalizing st with
  | nil => simp
  | cons a l ih =>
    rw [List.foldl_cons, ih]
    cases a <;> simp [execStep, List.mem_cons]

/-- A service is recorded SERVING after a step list exactly when it was
already SERVING or the list sets it to SERVING. -/
theorem foldl_execStep_serving (l : List Step) (st : ServerState) (s : String) :
    s ∈ (l.foldl execStep st).serving ↔
      s ∈ st.serving ∨ Step.setServing s ∈ l := by
  induction l generalizing st with
  | nil => simp
  | cons a l ih =>
    rw [List.foldl_cons, ih]
    cases a <;> simp [execStep, List.mem_cons] <;> tauto

/-- The SIGTERM handler is recorded installed after a step list exactly
when it was already installed or the list performs the
`signal.signal(signal.SIGTERM, on_sigterm)` call. -/
theorem foldl_execStep_handlerInstalled (l : List Step) (st : ServerState) :
    (l.foldl execStep st).handlerInstalled = true ↔
      st.handlerInstalled = true ∨ Step.installSigtermHandler ∈ l := by
  induction l generalizing st with
  | nil => simp
  | cons a l ih =>
    rw [List.foldl_cons, ih]
    cases a <;> simp [execStep, List.mem_cons]

/-- In any interleaving of program steps and SIGTERM deliveries that never
installs the handler, the handler stays uninstalled and the shutdown event
stays clear: a delivery can only reach the event through the installed
handler. -/
theorem runEvents_handler_free : ∀ (es : List SigEvent) (st : ServerState),
    SigEvent.prog Step.installSigtermHandler ∉ es →
    st.handlerInstalled = false → st.sig_term_received = false →
    (es.foldl execEvent st).handlerInstalled = false ∧
      (es.foldl execEvent st).sig_term_received = false := by
  intro es
  induction es with
  | nil => intro st _ hh hs; exact ⟨hh, hs⟩
  | cons e es ih =>
    intro st hni hh hs
    have hni' : SigEvent.prog Step.installSigtermHandler ∉ es :=
      fun hmem => hni (List.mem_cons_of_mem _ hmem)
    rw [List.foldl_cons]
    cases e with
    | sigterm =>
      refine ih _ hni' ?_ ?_
      · simp [execEvent, deliverSigterm, hh]
      · simp [execEvent, deliverSigterm, hh, hs]
    | prog s =>
      have hsne : s ≠ Step.installSigtermHandler := by
        intro hEq; subst hEq; exact hni (List.mem_cons_self _ _)
      refine ih _ hni' ?_ ?_
      · show (execStep st s).handlerInstalled = false
        rw [execStep_handlerInstalled st s hsne]; exact hh
      · show (execStep st s).sig_term_received = false
        rw [execStep_sig_term]; exact hs

/-- Under `cfg0`, `main` performs exactly the steps of `trace0`. -/
theorem mainSteps_cfg0 : mainSteps cfg0 = Except.ok trace0 := by rfl

/-! ### Claims -/

/-- C2 (counterexample): two distinct registered detector types declaring
the same descriptor name do not make registry construction fail.  The
construction yields a plugin list containing an instance of both, and the
startup run still binds the listener and starts serving. -/
theorem C2_counterexample :
    dupDetectorA.definition_name = dupDetectorB.definition_name ∧
    dupDetectorA ≠ dupDetectorB ∧
    (_configure_plugin_service default_flags [dupDetectorA, dupDetectorB]).map
        DetectorInstance.cls = [dupDetectorA, dupDetectorB] ∧
    (_configure_plugin_service default_flags [dupDetectorA, dupDetectorB]).length = 2 ∧
    mainSteps cfgDup = Except.ok traceDup ∧
    Step.serverStart ∈ traceDup := by
  refine ⟨rfl, by decide, by decide, by decide, by rfl, by decide⟩

/-- C2 (amended): if two distinct registered detector types declare the
same descriptor name, registry construction neither fails nor drops one of
them: it produces a plugin list with one instance of each type, both
same-named instances included. -/
theorem C2_duplicates_both_kept (f : Flags) (t₁ t₂ : VulnDetectorType)
    (_hdup : t₁.definition_name = t₂.definition_name) :
    (_configure_plugin_service f [t₁, t₂]).map DetectorInstance.cls = [t₁, t₂] ∧
    (_configure_plugin_service f [t₁, t₂]).length = 2 := by
  exact ⟨by simp [_configure_plugin_service], by simp [_configure_plugin_service]⟩

/-- Witness for C2 (amended) at the concrete colliding pair. -/
theorem C2_witness :
    (_configure_plugin_service default_flags [dupDetectorA, dupDetectorB]).map
        DetectorInstance.cls = [dupDetectorA, dupDetectorB] ∧
    (_configure_plugin_service default_flags [dupDetectorA, dupDetectorB]).length = 2 :=
  C2_duplicates_both_kept default_flags dupDetectorA dupDetectorB rfl

/-- C3: registry construction over `N` distinct registered detector types
produces exactly `N` instances, one per type in registration order with no
duplicates and no omissions, and every instance is constructed with the
same shared HTTP client and the same shared payload generator built at
startup. -/
theorem C3_one_instance_per_type (f : Flags) (subclasses : List VulnDetectorType)
    (hnd : subclasses.Nodup) :
    (_configure_plugin_service f subclasses).length = subclasses.length ∧
    (_configure_plugin_service f subclasses).map DetectorInstance.cls = subclasses ∧
    (_configure_plugin_service f subclasses).Nodup ∧
    ∀ p ∈ _configure_plugin_service f subclasses,
      p.http_client = http_client_of f ∧
      p.payload_generator = payload_generator_of f := by
  refine ⟨by simp [_configure_plugin_service], ?_, ?_, ?_⟩
  · simp only [_configure_plugin_service, List.map_map]
    have hcomp : (DetectorInstance.cls ∘ fun cls =>
        ({ cls := cls, http_client := http_client_of f
         , payload_generator := payload_generator_of f } : DetectorInstance)) = id := rfl
    rw [hcomp, List.map_id]
  · refine List.Nodup.map ?_ hnd
    intro a b hab
    simpa using congrArg DetectorInstance.cls hab
  · intro p hp
    simp only [_configure_plugin_service, List.mem_map] at hp
    obtain ⟨cls, -, hpc⟩ := hp
    subst hpc
    exact ⟨rfl, rfl⟩

/-- Witness for C3 at two concrete distinct detector types. -/
theorem C3_witness :
    (_configure_plugin_service default_flags [exampleDetector, secondDetector]).length
        = [exampleDetector, secondDetector].length ∧
    (_configure_plugin_service default_flags [exampleDetector, secondDetector]).map
        DetectorInstance.cls = [exampleDetector, secondDetector] ∧
    (_configure_plugin_service default_flags [exampleDetector, secondDetector]).Nodup :=
  ⟨(C3_one_instance_per_type default_flags [exampleDetector, secondDetector] (by decide)).1,
   (C3_one_instance_per_type default_flags [exampleDetector, secondDetector] (by decide)).2.1,
   (C3_one_instance_per_type default_flags [exampleDetector, secondDetector] (by decide)).2.2.1⟩

/-- C7: delivering SIGTERM twice leaves the shutdown state exactly as one
delivery does: the handler only sets the single-fire event, so the second
delivery is a no-op on the event state — `handle ∘ handle = handle` both
for the raw handler and for a delivery through the installed-handler
check. -/
theorem C7_sigterm_idempotent :
    (∀ st : ServerState, deliverSigterm (deliverSigterm st) = deliverSigterm st) ∧
    (∀ sg sg' e, on_sigterm sg' (on_sigterm sg e) = on_sigterm sg e) := by
  constructor
  · intro st
    by_cases h : st.handlerInstalled = true
    · simp [deliverSigterm, h, on_sigterm]
    · simp only [Bool.not_eq_true] at h
      simp [deliverSigterm, h]
  · intro _ _ _
    rfl

/-- C8: the outbound HTTP client is built with TLS certificate
verification equal to the negation of the trust-all-certificates flag:
flag `True` yields verification disabled, flag `False` yields verification
enabled, for every flag configuration. -/
theorem C8_verify_ssl_negation (f : Flags) :
    (http_client_of f).verify_ssl = !f.trust_all_ssl_cert ∧
    (http_client_of { f with trust_all_ssl_cert := true }).verify_ssl = false ∧
    (http_client_of { f with trust_all_ssl_cert := false }).verify_ssl = true :=
  ⟨rfl, rfl, rfl⟩

/-- C9: the trust-all-certificates flag defaults to `True`, so by default
the outbound HTTP client — including the one handed to every constructed
detector instance — has TLS certificate verification disabled. -/
theorem C9_default_trusts_all (subclasses : List VulnDetectorType) :
    default_flags.trust_all_ssl_cert = true ∧
    (http_client_of default_flags).verify_ssl = false ∧
    ∀ p ∈ _configure_plugin_service default_flags subclasses,
      p.http_client.verify_ssl = false := by
  refine ⟨rfl, rfl, ?_⟩
  intro p hp
  simp only [_configure_plugin_service, List.mem_map] at hp
  obtain ⟨cls, -, hpc⟩ := hp
  subst hpc
  rfl

/-- Witness for C9 at a concrete detector instance. -/
theorem C9_witness :
    default_flags.trust_all_ssl_cert = true ∧
    (http_client_of default_flags).verify_ssl = false ∧
    ({ cls := exampleDetector
     , http_client := http_client_of default_flags
     , payload_generator := payload_generator_of default_flags } :
        DetectorInstance).http_client.verify_ssl = false :=
  ⟨(C9_default_trusts_all [exampleDetector]).1,
   (C9_default_trusts_all [exampleDetector]).2.1,
   (C9_default_trusts_all [exampleDetector]).2.2 _ (by decide)⟩

/-- C1: in every startup run that reaches the serving state, the health
state of an advertised service is SERVING only after the listener has been
bound to the configured address and `server.start()` has begun accepting
connections: in every execution prefix in which some service is recorded
SERVING, the listener is already started and the bind has already
happened, so no execution order observes SERVING before server start. -/
theorem C1_serving_only_after_start (cfg : MainConfig) (t : List Step)
    (h : mainSteps cfg = Except.ok t) (n : Nat) (s : String)
    (hs : s ∈ (runTrace (t.take n)).serving) :
    (runTrace (t.take n)).started = true ∧
      Step.addInsecurePort (server_addr cfg.flags) ∈ t.take n := by
  obtain ⟨isteps, him, ht⟩ := mainSteps_ok_split cfg t h
  subst ht
  simp only [runTrace] at hs ⊢
  have hmem : Step.setServing s ∈
      (preStartSteps cfg isteps ++ postStartSteps cfg).take n := by
    rcases (foldl_execStep_serving _ initState s).mp hs with h' | h'
    · simp [initState] at h'
    · exact h'
  have hnot : Step.setServing s ∉ preStartSteps cfg isteps :=
    not_mem_preStartSteps cfg isteps him _ rfl
      (fun hEq => Step.noConfusion hEq) (fun hEq => Step.noConfusion hEq)
      (fun hEq => Step.noConfusion hEq) (fun hEq => Step.noConfusion hEq)
      (fun hEq => Step.noConfusion hEq)
  obtain ⟨hlt, -⟩ := length_lt_of_mem_take hnot hmem
  have hstart := mem_take_append_left (B := postStartSteps cfg)
    (serverStart_mem_preStartSteps cfg isteps) hlt.le
  have hbind := mem_take_append_left (B := postStartSteps cfg)
    (addInsecurePort_mem_preStartSteps cfg isteps) hlt.le
  exact ⟨(foldl_execStep_started _ initState).mpr (Or.inr hstart), hbind⟩

/-- Witness for C1 at a concrete run prefix in which the scan service has
just been set to SERVING. -/
theorem C1_witness :
    (runTrace (trace0.take 8)).started = true ∧
      Step.addInsecurePort (server_addr cfg0.flags) ∈ trace0.take 8 :=
  C1_serving_only_after_start cfg0 trace0 mainSteps_cfg0 8
    examplePluginServiceName (by decide)

/-- C4: an import error anywhere in the plugin-namespace traversal aborts
startup with that error before the listener is bound — both a failing root
package import and a failing module import inside the traversal make
`main` abort with the raised error, so no trace and in particular no bind
is produced — and in every successful run the whole import traversal runs
strictly before the port-bind step: any execution prefix containing the
bind already contains every module import of the run. -/
theorem C4_import_error_aborts_before_bind (cfg : MainConfig) :
    (∀ e, cfg.py_plugins.import_error = some e →
      mainSteps cfg = Except.error e) ∧
    (∀ e, cfg.py_plugins.import_error = none →
      _import_py_plugins "py_plugins" cfg.py_plugins.contents = Except.error e →
      mainSteps cfg = Except.error e) ∧
    (∀ t, mainSteps cfg = Except.ok t → ∀ n,
      Step.addInsecurePort (server_addr cfg.flags) ∈ t.take n →
      ∀ m, Step.importModule m ∈ t → Step.importModule m ∈ t.take n) := by
  refine ⟨?_, ?_, ?_⟩
  · intro e he
    simp [mainSteps, he]
  · intro e he hi
    simp [mainSteps, he, hi]
  · intro t h n hbind m himp
    obtain ⟨isteps, him, ht⟩ := mainSteps_ok_split cfg t h
    have hAB : preStartSteps cfg isteps ++ postStartSteps cfg =
        (Step.configureLog :: Step.importModule "py_plugins" :: isteps) ++
          ([Step.configurePluginService, Step.registerHealthService,
            Step.addInsecurePort (server_addr cfg.flags), Step.serverStart] ++
            postStartSteps cfg) := by
      simp [preStartSteps, List.append_assoc]
    rw [hAB] at ht
    subst ht
    have hnotA : Step.addInsecurePort (server_addr cfg.flags) ∉
        (Step.configureLog :: Step.importModule "py_plugins" :: isteps) := by
      intro hmem
      rcases List.mem_cons.mp hmem with hEq | hmem
      · exact Step.noConfusion hEq
      rcases List.mem_cons.mp hmem with hEq | hmem
      · exact Step.noConfusion hEq
      · simpa [Step.isImport] using him _ hmem
    obtain ⟨hlt, -⟩ := length_lt_of_mem_take hnotA hbind
    have hnotB : Step.importModule m ∉
        ([Step.configurePluginService, Step.registerHealthService,
          Step.addInsecurePort (server_addr cfg.flags), Step.serverStart] ++
          postStartSteps cfg) := by
      intro hmem
      rcases List.mem_append.mp hmem with hmem | hmem
      · simp at hmem
      · simp only [postStartSteps, List.mem_append] at hmem
        rcases hmem with hmem | hmem
        · exact not_mem_servingSteps _ _ (fun s hEq => Step.noConfusion hEq)
            (fun hEq => Step.noConfusion hEq) hmem
        · simp at hmem
    have hmemA : Step.importModule m ∈
        (Step.configureLog :: Step.importModule "py_plugins" :: isteps) := by
      rcases List.mem_append.mp himp with hA | hB
      · exact hA
      · exact absurd hB hnotB
    exact mem_take_append_left hmemA hlt.le

/-- Witness for C4: a failing module import aborts the run with the raised
error; a failing root-package import does too; and in the concrete
successful run the plugin imports all precede the bind. -/
theorem C4_witness :
    mainSteps cfgBad = Except.error "ImportError: broken_plugin" ∧
    mainSteps cfgRootBad = Except.error "ModuleNotFoundError: py_plugins" ∧
    Step.importModule "py_plugins.example_detector" ∈ trace0.take 7 :=
  ⟨(C4_import_error_aborts_before_bind cfgBad).2.1
      "ImportError: broken_plugin" rfl rfl,
   (C4_import_error_aborts_before_bind cfgRootBad).1
      "ModuleNotFoundError: py_plugins" rfl,
   (C4_import_error_aborts_before_bind cfg0).2.2 trace0 mainSteps_cfg0 7
      (by decide) "py_plugins.example_detector" (by decide)⟩

/-- C5 (counterexample): in the concrete startup run `trace0` of `main`,
the unique `server.start()` step occurs among the first seven steps, while
the reflection service is attached only afterwards — it is absent from the
first ten steps and occurs later — so the reflection service is not
attached to the server before the server starts accepting connections. -/
theorem C5_counterexample :
    mainSteps cfg0 = Except.ok trace0 ∧
    trace0.count Step.serverStart = 1 ∧
    trace0.count Step.enableReflection = 1 ∧
    Step.serverStart ∈ trace0.take 7 ∧
    Step.enableReflection ∉ trace0.take 10 ∧
    Step.enableReflection ∈ trace0 := by
  refine ⟨by rfl, by decide, by decide, by decide, by decide, by decide⟩

/-- C5 (amended): the reflection/introspection service is attached to the
server after `server.start()`, inside `_set_health_service_to_serving`
together with the SERVING announcements, not in the pre-start transition:
in every successful run, any execution prefix containing the reflection
attachment already contains the port bind, the server start, and every
SERVING transition. -/
theorem C5_reflection_after_start (cfg : MainConfig) (t : List Step)
    (h : mainSteps cfg = Except.ok t) (n : Nat)
    (hr : Step.enableReflection ∈ t.take n) :
    Step.serverStart ∈ t.take n ∧
      Step.addInsecurePort (server_addr cfg.flags) ∈ t.take n ∧
      ∀ s ∈ servicesOf cfg, Step.setServing s ∈ t.take n := by
  obtain ⟨isteps, him, ht⟩ := mainSteps_ok_split cfg t h
  have hAB : preStartSteps cfg isteps ++ postStartSteps cfg =
      (preStartSteps cfg isteps ++ (servicesOf cfg).map Step.setServing) ++
        (Step.enableReflection :: [Step.installSigtermHandler,
          Step.waitForSigterm, Step.serverStop 3, Step.stopWait]) := by
    simp [postStartSteps, _set_health_service_to_serving, List.append_assoc]
  rw [hAB] at ht
  subst ht
  have hnotA : Step.enableReflection ∉
      (preStartSteps cfg isteps ++ (servicesOf cfg).map Step.setServing) := by
    intro hmem
    rcases List.mem_append.mp hmem with hmem | hmem
    · exact not_mem_preStartSteps cfg isteps him Step.enableReflection rfl
        (fun hEq => Step.noConfusion hEq) (fun hEq => Step.noConfusion hEq)
        (fun hEq => Step.noConfusion hEq) (fun hEq => Step.noConfusion hEq)
        (fun hEq => Step.noConfusion hEq) hmem
    · simp only [List.mem_map] at hmem
      obtain ⟨a, -, hEq⟩ := hmem
      exact Step.noConfusion hEq
  obtain ⟨hlt, -⟩ := length_lt_of_mem_take hnotA hr
  refine ⟨?_, ?_, ?_⟩
  · exact mem_take_append_left
      (List.mem_append_left _ (serverStart_mem_preStartSteps cfg isteps)) hlt.le
  · exact mem_take_append_left
      (List.mem_append_left _ (addInsecurePort_mem_preStartSteps cfg isteps)) hlt.le
  · intro s hs
    exact mem_take_append_left
      (List.mem_append_right _ (List.mem_map_of_mem _ hs)) hlt.le

/-- Witness for C5 (amended) at a concrete run prefix that has just
attached the reflection service. -/
theorem C5_witness :
    Step.serverStart ∈ trace0.take 11 ∧
      Step.addInsecurePort (server_addr cfg0.flags) ∈ trace0.take 11 ∧
      Step.setServing health_SERVICE_NAME ∈ trace0.take 11 :=
  ⟨(C5_reflection_after_start cfg0 trace0 mainSteps_cfg0 11 (by decide)).1,
   (C5_reflection_after_start cfg0 trace0 mainSteps_cfg0 11 (by decide)).2.1,
   (C5_reflection_after_start cfg0 trace0 mainSteps_cfg0 11 (by decide)).2.2
     health_SERVICE_NAME (by decide)⟩

/-- C6: after the shutdown event fires, `main` performs exactly the stop
with grace period 3 and the drain wait, and nothing afterwards: every
successful trace ends with the shutdown wait, `server.stop(3)` and the
drain wait as its last three steps, so the main thread exits only after
the drain wait completes; and in the drain model the wait is bounded by
the grace period, exactly the in-flight calls finishing within the grace
period complete, and exactly the calls still running when it elapses are
abandoned. -/
theorem C6_graceful_shutdown (cfg : MainConfig) (t : List Step)
    (h : mainSteps cfg = Except.ok t) :
    t.drop (t.length - 3) =
      [Step.waitForSigterm, Step.serverStop 3, Step.stopWait] ∧
    ∀ inflight : List Nat,
      (serverStopWait 3 inflight).waited ≤ 3 ∧
      (∀ d, d ∈ (serverStopWait 3 inflight).completed ↔ d ∈ inflight ∧ d ≤ 3) ∧
      (∀ d, d ∈ (serverStopWait 3 inflight).abandoned ↔ d ∈ inflight ∧ 3 < d) := by
  constructor
  · obtain ⟨isteps, him, ht⟩ := mainSteps_ok_split cfg t h
    have hAB : preStartSteps cfg isteps ++ postStartSteps cfg =
        (preStartSteps cfg isteps ++
          (_set_health_service_to_serving (servicesOf cfg) ++
            [Step.installSigtermHandler])) ++
          [Step.waitForSigterm, Step.serverStop 3, Step.stopWait] := by
      simp [postStartSteps, List.append_assoc]
    rw [hAB] at ht
    subst ht
    rw [List.length_append]
    simp only [List.length_cons, List.length_nil]
    rw [Nat.add_sub_cancel]
    exact List.drop_left _ _
  · intro inflight
    refine ⟨Nat.min_le_right _ _, ?_, ?_⟩
    · intro d
      simp [serverStopWait, List.mem_filter]
    · intro d
      simp [serverStopWait, List.mem_filter]

/-- Witness for C6 at the concrete run `trace0` and two in-flight calls,
one inside the grace period and one beyond it. -/
theorem C6_witness :
    trace0.drop (trace0.length - 3) =
      [Step.waitForSigterm, Step.serverStop 3, Step.stopWait] ∧
    (serverStopWait 3 [1, 5]).waited ≤ 3 ∧
    (1 ∈ (serverStopWait 3 [1, 5]).completed ↔ 1 ∈ [1, 5] ∧ 1 ≤ 3) ∧
    (5 ∈ (serverStopWait 3 [1, 5]).abandoned ↔ 5 ∈ [1, 5] ∧ 3 < 5) :=
  ⟨(C6_graceful_shutdown cfg0 trace0 mainSteps_cfg0).1,
   ((C6_graceful_shutdown cfg0 trace0 mainSteps_cfg0).2 [1, 5]).1,
   ((C6_graceful_shutdown cfg0 trace0 mainSteps_cfg0).2 [1, 5]).2.1 1,
   ((C6_graceful_shutdown cfg0 trace0 mainSteps_cfg0).2 [1, 5]).2.2 5⟩

/-- C10: the SIGTERM handler is installed only after the server has
started and every advertised service has been set to SERVING — any
execution prefix in which the handler is installed already has the
listener started and all services SERVING — and before the installation
point no SIGTERM delivery can set the shutdown event through the handler:
in any interleaving of such a prefix with deliveries, the event stays
clear. -/
theorem C10_handler_installed_last (cfg : MainConfig) (t : List Step)
    (h : mainSteps cfg = Except.ok t) (n : Nat) :
    ((runTrace (t.take n)).handlerInstalled = true →
      (runTrace (t.take n)).started = true ∧
        ∀ s ∈ servicesOf cfg, s ∈ (runTrace (t.take n)).serving) ∧
    (∀ es : List SigEvent, es.filterMap SigEvent.progStep = t.take n →
      Step.installSigtermHandler ∉ t.take n →
      (runEvents es).sig_term_received = false) := by
  constructor
  · intro hh
    obtain ⟨isteps, him, ht⟩ := mainSteps_ok_split cfg t h
    have hAB : preStartSteps cfg isteps ++ postStartSteps cfg =
        (preStartSteps cfg isteps ++
          _set_health_service_to_serving (servicesOf cfg)) ++
          (Step.installSigtermHandler :: [Step.waitForSigterm,
            Step.serverStop 3, Step.stopWait]) := by
      simp [postStartSteps, List.append_assoc]
    rw [hAB] at ht
    subst ht
    simp only [runTrace] at hh ⊢
    have hmem : Step.installSigtermHandler ∈
        (((preStartSteps cfg isteps ++
          _set_health_service_to_serving (servicesOf cfg)) ++
          (Step.installSigtermHandler :: [Step.waitForSigterm,
            Step.serverStop 3, Step.stopWait]))).take n := by
      rcases (foldl_execStep_handlerInstalled _ initState).mp hh with h' | h'
      · cases h'
      · exact h'
    have hnotA : Step.installSigtermHandler ∉
        (preStartSteps cfg isteps ++
          _set_health_service_to_serving (servicesOf cfg)) := by
      intro hmem'
      rcases List.mem_append.mp hmem' with hmem' | hmem'
      · exact not_mem_preStartSteps cfg isteps him Step.installSigtermHandler rfl
          (fun hEq => Step.noConfusion hEq) (fun hEq => Step.noConfusion hEq)
          (fun hEq => Step.noConfusion hEq) (fun hEq => Step.noConfusion hEq)
          (fun hEq => Step.noConfusion hEq) hmem'
      · exact not_mem_servingSteps _ _ (fun s hEq => Step.noConfusion hEq)
          (fun hEq => Step.noConfusion hEq) hmem'
    obtain ⟨hlt, -⟩ := length_lt_of_mem_take hnotA hmem
    constructor
    · refine (foldl_execStep_started _ initState).mpr (Or.inr ?_)
      exact mem_take_append_left
        (List.mem_append_left _ (serverStart_mem_preStartSteps cfg isteps)) hlt.le
    · intro s hs
      refine (foldl_execStep_serving _ initState s).mpr (Or.inr ?_)
      refine mem_take_append_left (List.mem_append_right _ ?_) hlt.le
      exact List.mem_append_left _ (List.mem_map_of_mem _ hs)
  · intro es hproj hnotin
    have hni : SigEvent.prog Step.installSigtermHandler ∉ es := by
      intro hmem
      apply hnotin
      rw [← hproj]
      exact List.mem_filterMap.mpr ⟨_, hmem, rfl⟩
    exact (runEvents_handler_free es initState hni rfl rfl).2

/-- Witness for C10: at the concrete prefix where the handler has just
been installed, the server is started and the health service is SERVING;
and a SIGTERM delivered during an earlier prefix leaves the shutdown event
clear. -/
theorem C10_witness :
    ((runTrace (trace0.take 12)).started = true ∧
      health_SERVICE_NAME ∈ (runTrace (trace0.take 12)).serving) ∧
    (runEvents [SigEvent.sigterm, SigEvent.prog Step.configureLog,
      SigEvent.sigterm]).sig_term_received = false :=
  ⟨⟨((C10_handler_installed_last cfg0 trace0 mainSteps_cfg0 12).1 (by decide)).1,
    ((C10_handler_installed_last cfg0 trace0 mainSteps_cfg0 12).1 (by decide)).2
      health_SERVICE_NAME (by decide)⟩,
   (C10_handler_installed_last cfg0 trace0 mainSteps_cfg0 1).2
     [SigEvent.sigterm, SigEvent.prog Step.configureLog, SigEvent.sigterm]
     (by decide) (by decide)⟩

end TsunamiPluginServer
